import Mathlib

/-!
# EcoBridge — verification of the native economy core

Shallow embedding of the Rust sources of `ecobridge-rust` (pricing,
summation, environment, PID control, macro economy, transfer regulator and
the storage hot window) together with proofs about the embedded
definitions.

Modelling conventions:
* `f64` values are modelled by `F`: either a non-finite marker (`nan`,
  `inf`, `ninf`) or `num x` carrying an exact real payload.  Finite
  arithmetic is exact real arithmetic (rounding and overflow of finite
  intermediate results are abstracted away); the IEEE-754 rules for the
  propagation of `NaN` and of the infinities are kept.
* Where a code path manifestly stays finite, functions are embedded
  directly over `ℝ`.
* `i64` / `i32` values are modelled by `ℤ`, bit-mask fields by `ℕ`.
-/

noncomputable section

open scoped Classical

namespace EcoBridge

/-- Model of an IEEE-754 `f64`: a non-finite marker or an exact real. -/
inductive F : Type where
  | nan : F
  | inf : F
  | ninf : F
  | num : ℝ → F

namespace F

/-- `f64::is_finite`. -/
def isFinite : F → Bool
  | num _ => true
  | _ => false

/-- IEEE-754 `<` (any comparison with a NaN is false). -/
def lt : F → F → Prop
  | num x, num y => x < y
  | num _, inf => True
  | ninf, num _ => True
  | ninf, inf => True
  | _, _ => False

/-- IEEE-754 addition (`inf + ninf = nan`; finite addition exact). -/
def add : F → F → F
  | nan, _ => nan
  | _, nan => nan
  | inf, ninf => nan
  | ninf, inf => nan
  | inf, _ => inf
  | ninf, _ => ninf
  | num _, inf => inf
  | num _, ninf => ninf
  | num x, num y => num (x + y)

/-- IEEE-754 negation. -/
def neg : F → F
  | nan => nan
  | inf => ninf
  | ninf => inf
  | num x => num (-x)

/-- IEEE-754 multiplication (`0 * inf = nan`; finite product exact). -/
def mul : F → F → F
  | nan, _ => nan
  | _, nan => nan
  | inf, inf => inf
  | inf, ninf => ninf
  | ninf, inf => ninf
  | ninf, ninf => inf
  | inf, num y => if 0 < y then inf else if y < 0 then ninf else nan
  | num x, inf => if 0 < x then inf else if x < 0 then ninf else nan
  | ninf, num y => if 0 < y then ninf else if y < 0 then inf else nan
  | num x, ninf => if 0 < x then ninf else if x < 0 then inf else nan
  | num x, num y => num (x * y)

/-- IEEE-754 division (one unsigned zero; finite quotient exact). -/
def div : F → F → F
  | nan, _ => nan
  | _, nan => nan
  | inf, inf => nan
  | inf, ninf => nan
  | ninf, inf => nan
  | ninf, ninf => nan
  | inf, num y => if y < 0 then ninf else inf
  | ninf, num y => if y < 0 then inf else ninf
  | num _, inf => num 0
  | num _, ninf => num 0
  | num x, num y =>
      if y = 0 then (if 0 < x then inf else if x < 0 then ninf else nan)
      else num (x / y)

/-- Rust `f64::clamp self lo hi` for finite literal bounds `lo ≤ hi`:
`NaN` propagates, infinities land on the bounds. -/
def clamp (a : F) (lo hi : ℝ) : F :=
  match a with
  | nan => nan
  | inf => num hi
  | ninf => num lo
  | num x => num (min (max x lo) hi)

/-- Rust `f64::max` (maxNum: a NaN argument is ignored). -/
def max' : F → F → F
  | nan, b => b
  | a, nan => a
  | inf, _ => inf
  | _, inf => inf
  | ninf, b => b
  | a, ninf => a
  | num x, num y => num (max x y)

/-- `f64::tanh` (`tanh (±∞) = ±1`). -/
def tanh : F → F
  | nan => nan
  | inf => num 1
  | ninf => num (-1)
  | num x => num (Real.tanh x)

/-- `f64::exp` (`exp ∞ = ∞`, `exp (-∞) = 0`; finite case exact). -/
def exp : F → F
  | nan => nan
  | inf => inf
  | ninf => num 0
  | num x => num (Real.exp x)

/-- Real payload of a finite value (junk 0 on non-finite inputs). -/
def val : F → ℝ
  | num x => x
  | _ => 0

@[simp] lemma isFinite_num (x : ℝ) : (num x).isFinite = true := rfl

@[simp] lemma isFinite_nan : (nan).isFinite = false := rfl

@[simp] lemma isFinite_inf : (inf).isFinite = false := rfl

@[simp] lemma isFinite_ninf : (ninf).isFinite = false := rfl

@[simp] lemma lt_num_num (x y : ℝ) : lt (num x) (num y) = (x < y) := rfl

@[simp] lemma lt_num_inf (x : ℝ) : lt (num x) inf = True := rfl

@[simp] lemma lt_nan_left (b : F) : lt nan b = False := by cases b <;> rfl

@[simp] lemma lt_num_ninf (x : ℝ) : lt (num x) ninf = False := rfl

@[simp] lemma lt_num_nan (x : ℝ) : lt (num x) nan = False := rfl

@[simp] lemma lt_inf_num (x : ℝ) : lt inf (num x) = False := rfl

@[simp] lemma add_num_num (x y : ℝ) : add (num x) (num y) = num (x + y) := rfl

@[simp] lemma add_num_inf (x : ℝ) : add (num x) inf = inf := rfl

@[simp] lemma add_num_ninf (x : ℝ) : add (num x) ninf = ninf := rfl

@[simp] lemma add_num_nan (x : ℝ) : add (num x) nan = nan := rfl

@[simp] lemma neg_num (x : ℝ) : neg (num x) = num (-x) := rfl

@[simp] lemma mul_num_num (x y : ℝ) : mul (num x) (num y) = num (x * y) := rfl

@[simp] lemma mul_num_nan (x : ℝ) : mul (num x) nan = nan := rfl

@[simp] lemma mul_nan_left (b : F) : mul nan b = nan := by cases b <;> rfl

lemma mul_num_inf_of_neg {x : ℝ} (hx : x < 0) : mul (num x) inf = ninf := by
  simp [mul, not_lt.mpr hx.le, hx]

lemma mul_num_ninf_of_pos {x : ℝ} (hx : 0 < x) : mul (num x) ninf = ninf := by
  simp [mul, hx]

@[simp] lemma clamp_num (x lo hi : ℝ) : clamp (num x) lo hi = num (min (max x lo) hi) := rfl

@[simp] lemma clamp_nan (lo hi : ℝ) : clamp nan lo hi = nan := rfl

@[simp] lemma clamp_inf (lo hi : ℝ) : clamp inf lo hi = num hi := rfl

@[simp] lemma clamp_ninf (lo hi : ℝ) : clamp ninf lo hi = num lo := rfl

lemma div_num_num {x y : ℝ} (hy : y ≠ 0) : div (num x) (num y) = num (x / y) := by
  simp [div, hy]

@[simp] lemma div_nan_left (b : F) : div nan b = nan := by cases b <;> rfl

@[simp] lemma tanh_num (x : ℝ) : tanh (num x) = num (Real.tanh x) := rfl

@[simp] lemma tanh_nan : tanh nan = nan := rfl

@[simp] lemma exp_num (x : ℝ) : exp (num x) = num (Real.exp x) := rfl

@[simp] lemma exp_nan : exp nan = nan := rfl

@[simp] lemma max'_num_num (x y : ℝ) : max' (num x) (num y) = num (max x y) := rfl

@[simp] lemma max'_nan_left (b : F) : max' nan b = b := by cases b <;> rfl

@[simp] lemma max'_nan_num (x : ℝ) : max' nan (num x) = num x := rfl

@[simp] lemma num_injEq (x y : ℝ) : (num x = num y) ↔ x = y := by
  constructor
  · intro h; cases h; rfl
  · intro h; rw [h]

lemma isFinite_iff_exists (a : F) : a.isFinite = true ↔ ∃ x, a = num x := by
  cases a <;> simp [isFinite]

end F

end EcoBridge

namespace EcoBridge

/-! ## Auxiliary real-analysis lemmas -/

lemma tanh_lt_one (x : ℝ) : Real.tanh x < 1 := by
  rw [Real.tanh_eq_sinh_div_cosh, div_lt_one (Real.cosh_pos x)]
  exact Real.sinh_lt_cosh x

lemma neg_one_lt_tanh (x : ℝ) : -1 < Real.tanh x := by
  have h := tanh_lt_one (-x)
  rw [Real.tanh_neg] at h
  linarith

lemma tanh_pos {x : ℝ} (hx : 0 < x) : 0 < Real.tanh x := by
  rw [Real.tanh_eq_sinh_div_cosh]
  exact div_pos (Real.sinh_pos_iff.mpr hx) (Real.cosh_pos x)

lemma tanh_le_tanh {a b : ℝ} (h : a ≤ b) : Real.tanh a ≤ Real.tanh b := by
  rw [Real.tanh_eq_sinh_div_cosh, Real.tanh_eq_sinh_div_cosh,
    div_le_div_iff₀ (Real.cosh_pos a) (Real.cosh_pos b)]
  have h0 : 0 ≤ Real.sinh (b - a) := Real.sinh_nonneg_iff.mpr (by linarith)
  rw [Real.sinh_sub] at h0
  nlinarith [h0]

lemma exp_ten_lt_1e5 : Real.exp 10 < 100000 := by
  have h1 : Real.exp 1 < 2.7182818286 := Real.exp_one_lt_d9
  calc Real.exp 10 = Real.exp 1 ^ 10 := by
        rw [Real.exp_one_pow]
        norm_num
    _ < 2.7182818286 ^ 10 :=
        pow_lt_pow_left₀ h1 (Real.exp_pos 1).le (by norm_num)
    _ < 100000 := by norm_num

/-! ## `economy/pricing.rs` -/

/-- Embedding of `compute_price_behavioral_core` from
`src/economy/pricing.rs`: finiteness guard on `base_price`, `n_eff`,
`lambda`, `epsilon`; asymmetric sensitivity (`0.6·λ` on sells); soft
clamping through `10·tanh(raw/10)`; hard floor `0.01` via `f64::max`. -/
def compute_price_behavioral_core (base_price n_eff trade_amount lambda epsilon : F) : F :=
  if (!base_price.isFinite || !n_eff.isFinite || !lambda.isFinite || !epsilon.isFinite) then
    F.num 0.01
  else
    let adj_lambda := if F.lt (F.num 0) trade_amount then F.mul lambda (F.num 0.6) else lambda
    let total_n := F.add n_eff trade_amount
    let raw_exponent := F.clamp (F.mul (F.neg adj_lambda) total_n) (-100) 100
    let clamped_exponent := F.mul (F.num 10) (F.tanh (F.div raw_exponent (F.num 10)))
    let final_price := F.mul (F.mul base_price epsilon) (F.exp clamped_exponent)
    F.max' final_price (F.num 0.01)

/-- The value `compute_price_behavioral_core` takes on all-finite inputs
(proved equal below in `compute_price_behavioral_core_num`). -/
def corePrice (b n t l e : ℝ) : ℝ :=
  max (b * e * Real.exp (10 * Real.tanh
    (min (max (-(if 0 < t then l * 0.6 else l) * (n + t)) (-100)) 100 / 10))) 0.01

lemma compute_price_behavioral_core_num (b n t l e : ℝ) :
    compute_price_behavioral_core (F.num b) (F.num n) (F.num t) (F.num l) (F.num e)
      = F.num (corePrice b n t l e) := by
  by_cases ht : (0:ℝ) < t
  · simp [compute_price_behavioral_core, corePrice, ht, F.div_num_num]
  · simp [compute_price_behavioral_core, corePrice, ht, F.div_num_num]

/-- Embedding of `compute_price_final_internal` (static price, zero trade). -/
def compute_price_final_internal (base_price n_eff lambda epsilon : F) : F :=
  compute_price_behavioral_core base_price n_eff (F.num 0) lambda epsilon

/-- Embedding of `compute_price_humane_internal` (FFI entry, passthrough). -/
def compute_price_humane_internal (base_price n_eff trade_amount base_lambda epsilon : F) : F :=
  compute_price_behavioral_core base_price n_eff trade_amount base_lambda epsilon

end EcoBridge

namespace EcoBridge

lemma corePrice_sell (b e : ℝ) {l a : ℝ} (hl : 0 < l) (ha : 0 < a) :
    corePrice b 0 a l e
      = max (b * e * Real.exp (-(10 * Real.tanh (min (l * 0.6 * a) 100 / 10)))) 0.01 := by
  have hpos : (0:ℝ) < min (l * 0.6 * a) 100 := lt_min (by nlinarith) (by norm_num)
  unfold corePrice
  rw [if_pos ha]
  rw [show -(l * 0.6) * ((0:ℝ) + a) = -(l * 0.6 * a) by ring]
  rw [max_neg_neg]
  rw [min_eq_left (by linarith : -(min (l * 0.6 * a) 100) ≤ (100:ℝ))]
  rw [neg_div, Real.tanh_neg, mul_neg]

lemma corePrice_buy (b e : ℝ) {l a : ℝ} (hl : 0 < l) (ha : 0 < a) :
    corePrice b 0 (-a) l e
      = max (b * e * Real.exp (10 * Real.tanh (min (l * a) 100 / 10))) 0.01 := by
  have hna : ¬ (0:ℝ) < -a := by linarith
  have hx : (0:ℝ) < l * a := mul_pos hl ha
  unfold corePrice
  rw [if_neg hna]
  rw [show -l * ((0:ℝ) + -a) = l * a by ring]
  rw [max_eq_left (by linarith : (-100:ℝ) ≤ l * a)]

/-- C8: with `Neff = 0`, `ε = 1` and positive `base`, `λ`, `amount`, the
sell-direction price and the buy-direction price of the behavioral core
satisfy `p_sell > 2·base − p_buy`: the sell-side drop is strictly smaller
than the buy-side rise. -/
theorem behavioral_core_sell_drop_lt_buy_rise (b l a : ℝ)
    (hb : 0 < b) (hl : 0 < l) (ha : 0 < a) :
    ∃ ps pb : ℝ,
      compute_price_behavioral_core (F.num b) (F.num 0) (F.num a) (F.num l) (F.num 1)
        = F.num ps ∧
      compute_price_behavioral_core (F.num b) (F.num 0) (F.num (-a)) (F.num l) (F.num 1)
        = F.num pb ∧
      2 * b - pb < ps := by
  refine ⟨corePrice b 0 a l 1, corePrice b 0 (-a) l 1,
    compute_price_behavioral_core_num b 0 a l 1,
    compute_price_behavioral_core_num b 0 (-a) l 1, ?_⟩
  rw [corePrice_sell b 1 hl ha, corePrice_buy b 1 hl ha]
  simp only [mul_one]
  have hx : (0:ℝ) < l * a := mul_pos hl ha
  have hc1 : (0:ℝ) < min (l * 0.6 * a) 100 := lt_min (by nlinarith) (by norm_num)
  have hc12 : min (l * 0.6 * a) 100 ≤ min (l * a) 100 := min_le_min (by nlinarith) le_rfl
  have hT1 : 0 < 10 * Real.tanh (min (l * 0.6 * a) 100 / 10) := by
    have := tanh_pos (div_pos hc1 (by norm_num : (0:ℝ) < 10))
    linarith
  have hT12 : 10 * Real.tanh (min (l * 0.6 * a) 100 / 10)
      ≤ 10 * Real.tanh (min (l * a) 100 / 10) := by
    have := tanh_le_tanh (by linarith : min (l * 0.6 * a) 100 / 10 ≤ min (l * a) 100 / 10)
    linarith
  set T1 := 10 * Real.tanh (min (l * 0.6 * a) 100 / 10) with hT1def
  set T2 := 10 * Real.tanh (min (l * a) 100 / 10) with hT2def
  have hcosh : Real.exp (-T1) + Real.exp T1 = 2 * Real.cosh T1 := by
    rw [Real.cosh_eq]; ring
  have honelt : 1 < Real.cosh T1 := Real.one_lt_cosh.mpr (ne_of_gt hT1)
  have hexple : Real.exp T1 ≤ Real.exp T2 := Real.exp_le_exp.mpr hT12
  have h5 : b * Real.exp (-T1) ≤ max (b * Real.exp (-T1)) 0.01 := le_max_left _ _
  have h6 : b * Real.exp T2 ≤ max (b * Real.exp T2) 0.01 := le_max_left _ _
  have h9 : 2 * b < b * Real.exp (-T1) + b * Real.exp T1 := by
    nlinarith [hcosh, mul_pos hb (sub_pos.mpr honelt)]
  have h8 : b * Real.exp T1 ≤ b * Real.exp T2 := mul_le_mul_of_nonneg_left hexple hb.le
  linarith [h5, h6, h8, h9]

/-- Witness for `behavioral_core_sell_drop_lt_buy_rise` at
`base = 100`, `λ = 0.01`, `amount = 10` (the repository's own unit test). -/
theorem behavioral_core_sell_drop_lt_buy_rise_witness :
    (0:ℝ) < 100 ∧ (0:ℝ) < 0.01 ∧ (0:ℝ) < 10 ∧
    (∃ ps pb : ℝ,
      compute_price_behavioral_core (F.num 100) (F.num 0) (F.num 10)
          (F.num 0.01) (F.num 1) = F.num ps ∧
      compute_price_behavioral_core (F.num 100) (F.num 0) (F.num (-10))
          (F.num 0.01) (F.num 1) = F.num pb ∧
      2 * 100 - pb < ps) :=
  ⟨by norm_num, by norm_num, by norm_num,
    behavioral_core_sell_drop_lt_buy_rise 100 0.01 10
      (by norm_num) (by norm_num) (by norm_num)⟩

end EcoBridge

namespace EcoBridge

/-- C4 (amended): the finiteness guard of the behavioral pricing core
covers `base_price`, `n_eff`, `lambda` and `epsilon` — any non-finite
value among those four yields the hard floor `0.01`.  A `NaN`
`trade_amount` also ends at `0.01`, because the `NaN` propagates to
`final_price` and `f64::max(NaN, 0.01) = 0.01`; an infinite
`trade_amount`, by contrast, is not guarded (see the counterexample). -/
theorem behavioral_core_nonfinite_guard (b n t l e : F) :
    (b.isFinite = false ∨ n.isFinite = false ∨ l.isFinite = false ∨ e.isFinite = false →
      compute_price_behavioral_core b n t l e = F.num 0.01) ∧
    (t = F.nan → compute_price_behavioral_core b n t l e = F.num 0.01) := by
  have hguard : b.isFinite = false ∨ n.isFinite = false ∨ l.isFinite = false ∨
      e.isFinite = false → compute_price_behavioral_core b n t l e = F.num 0.01 := by
    intro h
    unfold compute_price_behavioral_core
    rcases h with h | h | h | h <;> simp [h]
  refine ⟨hguard, ?_⟩
  intro ht
  subst ht
  by_cases hb : b.isFinite = true
  case neg => exact hguard (Or.inl (by simpa using hb))
  by_cases hn : n.isFinite = true
  case neg => exact hguard (Or.inr (Or.inl (by simpa using hn)))
  by_cases hl : l.isFinite = true
  case neg => exact hguard (Or.inr (Or.inr (Or.inl (by simpa using hl))))
  by_cases he : e.isFinite = true
  case neg => exact hguard (Or.inr (Or.inr (Or.inr (by simpa using he))))
  obtain ⟨xb, rfl⟩ := (F.isFinite_iff_exists b).mp hb
  obtain ⟨xn, rfl⟩ := (F.isFinite_iff_exists n).mp hn
  obtain ⟨xl, rfl⟩ := (F.isFinite_iff_exists l).mp hl
  obtain ⟨xe, rfl⟩ := (F.isFinite_iff_exists e).mp he
  unfold compute_price_behavioral_core
  simp

/-- Witness for `behavioral_core_nonfinite_guard`: a `NaN` base price
(and, for the second part, a `NaN` trade amount) produce exactly `0.01`. -/
theorem behavioral_core_nonfinite_guard_witness :
    ((F.nan).isFinite = false ∨ (F.num 1).isFinite = false ∨
        (F.num 1).isFinite = false ∨ (F.num 1).isFinite = false) ∧
    compute_price_behavioral_core F.nan (F.num 1) (F.num 0) (F.num 1) (F.num 1)
      = F.num 0.01 ∧
    compute_price_behavioral_core (F.num 2) (F.num 1) F.nan (F.num 1) (F.num 1)
      = F.num 0.01 :=
  ⟨Or.inl rfl,
    (behavioral_core_nonfinite_guard F.nan (F.num 1) (F.num 0) (F.num 1) (F.num 1)).1
      (Or.inl rfl),
    (behavioral_core_nonfinite_guard (F.num 2) (F.num 1) F.nan (F.num 1) (F.num 1)).2 rfl⟩

/-- C4 counterexample: `trade_amount = +∞` with all other inputs finite is
non-finite, yet the core does **not** return `0.01`: the `+∞` sails through
the unguarded `trade_amount` parameter, is clamped to exponent `−100`, and
the result is `1000·exp(10·tanh(−10)) ≈ 45.4`. -/
theorem behavioral_core_inf_trade_counterexample :
    compute_price_behavioral_core (F.num 1000) (F.num 0) F.inf (F.num 1) (F.num 1)
      ≠ F.num 0.01 := by
  have hred : compute_price_behavioral_core (F.num 1000) (F.num 0) F.inf (F.num 1) (F.num 1)
      = F.num (max (1000 * Real.exp (10 * Real.tanh (-10))) 0.01) := by
    unfold compute_price_behavioral_core
    norm_num [F.mul_num_inf_of_neg, F.div_num_num]
  rw [hred]
  have ht : (-10:ℝ) < 10 * Real.tanh (-10) := by
    have h := neg_one_lt_tanh (-10)
    linarith
  have hexp : Real.exp (-10) < Real.exp (10 * Real.tanh (-10)) := Real.exp_lt_exp.mpr ht
  have hlow : (0.01:ℝ) < 1000 * Real.exp (-10) := by
    have h5 := exp_ten_lt_1e5
    have hpos := Real.exp_pos (10:ℝ)
    rw [Real.exp_neg, ← div_eq_mul_inv, lt_div_iff₀ hpos]
    linarith
  have hmul : 1000 * Real.exp (-10) < 1000 * Real.exp (10 * Real.tanh (-10)) := by
    linarith
  have key : (0.01:ℝ) < 1000 * Real.exp (10 * Real.tanh (-10)) := by linarith
  intro hEq
  rw [F.num_injEq, max_eq_left key.le] at hEq
  linarith [key, hEq.le, hEq.ge]

/-! ## `models.rs` and `security/regulator.rs` -/

/-- Embedding of `TransferContext` (`models.rs`); `f64` fields that the
regulator only uses through finite-value arithmetic are reals, the
`i64`/`i32` fields are integers. -/
structure TransferContext where
  amount : ℝ
  sender_balance : ℝ
  receiver_balance : ℝ
  inflation_rate : ℝ
  newbie_limit : ℝ
  sender_play_time : ℤ
  receiver_play_time : ℤ
  sender_activity_score : ℝ
  sender_velocity : ℤ

/-- Embedding of `RegulatorConfig` (`models.rs`). -/
structure RegulatorConfig where
  base_tax_rate : ℝ
  luxury_threshold : ℝ
  luxury_tax_rate : ℝ
  wealth_gap_tax_rate : ℝ
  poor_threshold : ℝ
  rich_threshold : ℝ
  newbie_receive_limit : ℝ
  warning_ratio : ℝ
  warning_min_amount : ℝ
  newbie_hours : ℝ
  veteran_hours : ℝ
  velocity_threshold : ℝ

/-- Embedding of `TransferResult` (`models.rs`). -/
structure TransferResult where
  final_tax : ℝ
  is_blocked : ℤ
  warning_code : ℤ

def CODE_NORMAL : ℤ := 0

def CODE_WARNING_HIGH_RISK : ℤ := 1

def CODE_BLOCK_REVERSE_FLOW : ℤ := 2

def CODE_BLOCK_INJECTION : ℤ := 3

def CODE_BLOCK_INSUFFICIENT_FUNDS : ℤ := 4

def CODE_BLOCK_VELOCITY_LIMIT : ℤ := 5

/-- Embedding of `compute_transfer_check_internal`
(`security/regulator.rs`): balance hard check, behavioral velocity audit,
reverse-flow interception, risk warning, and the adaptive behavioral tax
with the `0.8·amount` cap.  The sequential `let mut tax` updates of the
source are the chained `tax0 … tax3`. -/
def compute_transfer_check_internal (ctx : TransferContext) (cfg : RegulatorConfig) :
    TransferResult :=
  let amount := max ctx.amount 0
  let sender_bal := max ctx.sender_balance 0
  let receiver_bal := max ctx.receiver_balance 0
  if amount > sender_bal then
    ⟨0, 1, CODE_BLOCK_INSUFFICIENT_FUNDS⟩
  else
    let puppet_factor :=
      if ctx.sender_activity_score < 0.1 then (ctx.sender_velocity : ℝ) * 2
      else (ctx.sender_velocity : ℝ) / max ctx.sender_activity_score 0.1
    if puppet_factor > cfg.velocity_threshold then
      ⟨0, 1, CODE_BLOCK_VELOCITY_LIMIT⟩
    else
      let newbie_threshold_sec := cfg.newbie_hours * 3600
      let veteran_threshold_sec := cfg.veteran_hours * 3600
      if (ctx.sender_play_time : ℝ) < newbie_threshold_sec ∧
          (ctx.receiver_play_time : ℝ) > veteran_threshold_sec ∧
          amount > ctx.newbie_limit then
        ⟨0, 1, CODE_BLOCK_REVERSE_FLOW⟩
      else
        let risk_ratio := amount / max sender_bal 1
        let warning_code :=
          if risk_ratio > cfg.warning_ratio ∨
              puppet_factor > cfg.velocity_threshold * 0.7 then
            CODE_WARNING_HIGH_RISK
          else CODE_NORMAL
        let inflation_adj := 1 + max ctx.inflation_rate 0
        let tax0 := amount * cfg.base_tax_rate * inflation_adj
        let tax1 := tax0 * Real.exp ((ctx.sender_velocity : ℝ) * 0.05)
        let tax2 :=
          if amount > cfg.luxury_threshold then
            (amount - cfg.luxury_threshold) * cfg.luxury_tax_rate + tax1
          else tax1
        let tax3 :=
          if sender_bal < cfg.poor_threshold ∧ receiver_bal > cfg.rich_threshold then
            max tax2 (amount * cfg.wealth_gap_tax_rate)
          else tax2
        ⟨min tax3 (amount * 0.8), 0, warning_code⟩

end EcoBridge

namespace EcoBridge

/-- C9: for a transfer that is not blocked, the final tax is capped at
`0.8` times the non-negative-clamped amount; and with the default base tax
`5 %` and wealth-gap tax `20 %`, a poor→rich transfer (clamped sender
balance below `poor_threshold`, clamped receiver balance above
`rich_threshold`) is taxed at least `20 %` of the clamped amount. -/
theorem transfer_tax_cap_and_wealth_gap (ctx : TransferContext) (cfg : RegulatorConfig)
    (hnb : (compute_transfer_check_internal ctx cfg).is_blocked = 0) :
    (compute_transfer_check_internal ctx cfg).final_tax ≤ 0.8 * max ctx.amount 0 ∧
    (cfg.base_tax_rate = 0.05 → cfg.wealth_gap_tax_rate = 0.2 →
      max ctx.sender_balance 0 < cfg.poor_threshold →
      cfg.rich_threshold < max ctx.receiver_balance 0 →
      0.2 * max ctx.amount 0 ≤ (compute_transfer_check_internal ctx cfg).final_tax) := by
  have hamt : (0:ℝ) ≤ max ctx.amount 0 := le_max_right _ _
  simp only [compute_transfer_check_internal] at hnb ⊢
  by_cases hA : max ctx.amount 0 > max ctx.sender_balance 0
  · rw [if_pos hA] at hnb
    exact absurd hnb (by norm_num)
  rw [if_neg hA] at hnb ⊢
  by_cases hB : (if ctx.sender_activity_score < 0.1 then (ctx.sender_velocity : ℝ) * 2
      else (ctx.sender_velocity : ℝ) / max ctx.sender_activity_score 0.1) >
      cfg.velocity_threshold
  · rw [if_pos hB] at hnb
    exact absurd hnb (by norm_num)
  rw [if_neg hB] at hnb ⊢
  by_cases hC : (ctx.sender_play_time : ℝ) < cfg.newbie_hours * 3600 ∧
      (ctx.receiver_play_time : ℝ) > cfg.veteran_hours * 3600 ∧
      max ctx.amount 0 > ctx.newbie_limit
  · rw [if_pos hC] at hnb
    exact absurd hnb (by norm_num)
  rw [if_neg hC] at hnb ⊢
  dsimp only
  constructor
  · exact le_trans (min_le_right _ _) (by linarith)
  · intro hbase hgap hpoor hrich
    rw [if_pos ⟨hpoor, hrich⟩, hgap]
    refine le_min (le_trans (by linarith) (le_max_right _ _)) (by linarith)

end EcoBridge

namespace EcoBridge

/-- Witness for `transfer_tax_cap_and_wealth_gap`: a concrete unblocked
poor→rich transfer of 1000 under the default config is taxed between 20 %
and 80 % of the amount. -/
theorem transfer_tax_cap_and_wealth_gap_witness :
    (compute_transfer_check_internal
        ⟨1000, 5000, 2000000, 0, 50000, 500000, 500000, 1, 0⟩
        ⟨0.05, 100000, 0.10, 0.20, 10000, 1000000, 50000, 0.9, 50000, 10, 100, 20⟩).is_blocked
      = 0 ∧
    (compute_transfer_check_internal
        ⟨1000, 5000, 2000000, 0, 50000, 500000, 500000, 1, 0⟩
        ⟨0.05, 100000, 0.10, 0.20, 10000, 1000000, 50000, 0.9, 50000, 10, 100, 20⟩).final_tax
      ≤ 0.8 * max (1000:ℝ) 0 ∧
    0.2 * max (1000:ℝ) 0 ≤
      (compute_transfer_check_internal
        ⟨1000, 5000, 2000000, 0, 50000, 500000, 500000, 1, 0⟩
        ⟨0.05, 100000, 0.10, 0.20, 10000, 1000000, 50000, 0.9, 50000, 10, 100, 20⟩).final_tax := by
  have h : (compute_transfer_check_internal
      ⟨1000, 5000, 2000000, 0, 50000, 500000, 500000, 1, 0⟩
      ⟨0.05, 100000, 0.10, 0.20, 10000, 1000000, 50000, 0.9, 50000, 10, 100, 20⟩).is_blocked
      = 0 := by
    norm_num [compute_transfer_check_internal, max_def]
  refine ⟨h, (transfer_tax_cap_and_wealth_gap _ _ h).1, ?_⟩
  exact (transfer_tax_cap_and_wealth_gap _ _ h).2 (by norm_num) (by norm_num)
    (by norm_num [max_def]) (by norm_num [max_def])

/-- C1: at a transfer whose sender is a veteran (400 000 s > 100 h),
whose receiver is a newbie (0 s < 10 h) and where
`receiver_balance + amount = 0 + 60 000` exceeds the default
`newbie_receive_limit = 50 000`, with no earlier rule matching,
`compute_transfer_check_internal` does **not** block: it returns
`is_blocked = 0` and a warning code different from
`CODE_BLOCK_INJECTION`.  The constant `CODE_BLOCK_INJECTION` and the
config field `newbie_receive_limit` are declared but never used by the
audit, so the injection rule of the specification is unimplemented. -/
theorem injection_rule_not_enforced :
    ((100:ℝ) * 3600 < ((400000:ℤ) : ℝ)) ∧
    (((0:ℤ) : ℝ) < (10:ℝ) * 3600) ∧
    ((0:ℝ) + 60000 > (50000:ℝ)) ∧
    (compute_transfer_check_internal
        ⟨60000, 100000, 0, 0, 50000, 400000, 0, 1, 0⟩
        ⟨0.05, 100000, 0.10, 0.20, 10000, 1000000, 50000, 0.9, 50000, 10, 100, 20⟩).is_blocked
      = 0 ∧
    (compute_transfer_check_internal
        ⟨60000, 100000, 0, 0, 50000, 400000, 0, 1, 0⟩
        ⟨0.05, 100000, 0.10, 0.20, 10000, 1000000, 50000, 0.9, 50000, 10, 100, 20⟩).warning_code
      ≠ CODE_BLOCK_INJECTION := by
  refine ⟨by norm_num, by norm_num, by norm_num, ?_, ?_⟩
  · norm_num [compute_transfer_check_internal, max_def]
  · norm_num [compute_transfer_check_internal, max_def, CODE_BLOCK_INJECTION,
      CODE_NORMAL, CODE_WARNING_HIGH_RISK]

end EcoBridge

namespace EcoBridge

/-! ## `storage/mod.rs` — hot-window history and initialization -/

/-- Embedding of `HistoryRecord` (`models.rs`): millisecond timestamp and
signed trade amount. -/
structure HistoryRecord where
  timestamp : ℤ
  amount : ℝ

/-- Embedding of the in-memory part of `log_economy_event`
(`storage/mod.rs`): push the record onto `GLOBAL_HISTORY`, then, if the
length exceeds 500 000, drain the oldest `len − 400 000` entries.  The
async DuckDB queue send is outside the hot window and not modelled. -/
def log_economy_event (hist : List HistoryRecord) (ts : ℤ) (delta : ℝ) :
    List HistoryRecord :=
  let h := hist ++ [(⟨ts, delta⟩ : HistoryRecord)]
  if 500000 < h.length then h.drop (h.length - 400000) else h

/-- C3 (amended): when an append pushes the hot window above 500 000
records, the oldest `len − 400 000` entries are dropped (not a fixed
100 000), the window shrinks to exactly 400 000 records, and what remains
is the newest suffix of the appended list in its original order. -/
theorem log_economy_event_prune (hist : List HistoryRecord) (ts : ℤ) (delta : ℝ)
    (hlen : 500000 < (hist ++ [(⟨ts, delta⟩ : HistoryRecord)]).length) :
    log_economy_event hist ts delta
      = (hist ++ [(⟨ts, delta⟩ : HistoryRecord)]).drop ((hist ++ [(⟨ts, delta⟩ : HistoryRecord)]).length - 400000) ∧
    (log_economy_event hist ts delta).length = 400000 ∧
    (hist ++ [(⟨ts, delta⟩ : HistoryRecord)]).take ((hist ++ [(⟨ts, delta⟩ : HistoryRecord)]).length - 400000)
        ++ log_economy_event hist ts delta = hist ++ [(⟨ts, delta⟩ : HistoryRecord)] := by
  have h1 : log_economy_event hist ts delta
      = (hist ++ [(⟨ts, delta⟩ : HistoryRecord)]).drop ((hist ++ [(⟨ts, delta⟩ : HistoryRecord)]).length - 400000) := by
    simp only [log_economy_event]
    rw [if_pos hlen]
  refine ⟨h1, ?_, ?_⟩
  · rw [h1, List.length_drop]
    omega
  · rw [h1]
    exact List.take_append_drop _ _

lemma replicate_append_len :
    (List.replicate 500000 (⟨0, (0:ℝ)⟩ : HistoryRecord)
        ++ [(⟨0, 0⟩ : HistoryRecord)]).length = 500001 := by
  rw [List.length_append, List.length_replicate]
  norm_num

/-- Witness for `log_economy_event_prune`: pushing one record onto a
500 000-record window prunes it to 400 000. -/
theorem log_economy_event_prune_witness :
    500000 < (List.replicate 500000 (⟨0, (0:ℝ)⟩ : HistoryRecord) ++ [(⟨0, 0⟩ : HistoryRecord)]).length ∧
    (log_economy_event (List.replicate 500000 (⟨0, (0:ℝ)⟩ : HistoryRecord)) 0 0).length = 400000 :=
  ⟨by rw [replicate_append_len]; norm_num,
    (log_economy_event_prune (List.replicate 500000 (⟨0, (0:ℝ)⟩ : HistoryRecord)) 0 0
      (by rw [replicate_append_len]; norm_num)).2.1⟩

/-- C3 counterexample: from a window of exactly 500 000 records one
append removes 100 001 entries — not "exactly the oldest 100 000" as the
specification says (500 001 − 400 000 = 100 001). -/
theorem log_economy_event_prune_counterexample :
    (log_economy_event (List.replicate 500000 (⟨0, (0:ℝ)⟩ : HistoryRecord)) 0 0).length = 400000 ∧
    (List.replicate 500000 (⟨0, (0:ℝ)⟩ : HistoryRecord) ++ [(⟨0, 0⟩ : HistoryRecord)]).length
        - (log_economy_event (List.replicate 500000 (⟨0, (0:ℝ)⟩ : HistoryRecord)) 0 0).length = 100001 := by
  have h1 : log_economy_event (List.replicate 500000 (⟨0, (0:ℝ)⟩ : HistoryRecord)) 0 0
      = (List.replicate 500000 (⟨0, (0:ℝ)⟩ : HistoryRecord) ++ [(⟨0, 0⟩ : HistoryRecord)]).drop 100001 := by
    simp only [log_economy_event]
    rw [if_pos (by rw [replicate_append_len]; norm_num)]
    rw [replicate_append_len]
  rw [h1, List.length_drop, replicate_append_len]
  norm_num

/-- State of the storage singletons: whether the `LOG_SENDER` and
`READ_POOL` `OnceLock`s have been set. -/
structure StorageState where
  log_sender_set : Bool
  read_pool_set : Bool

/-- Embedding of `init_economy_db` (`storage/mod.rs`).  The fallible I/O
steps are oracles: `open_ok` is whether `Connection::open` succeeds
(`−4` on failure), `ddl_ok` whether the DDL batch succeeds (`−5`).  After
those, the pool is registered and the final `LOG_SENDER.set` yields `0`
on success and `−7` if the sender is (concurrently) already set.  The
memory preload and writer-thread spawn have no effect on this state. -/
def init_economy_db (st : StorageState) (open_ok ddl_ok : Bool) : ℤ × StorageState :=
  if st.log_sender_set then (0, st)
  else if !open_ok then (-4, st)
  else if !ddl_ok then (-5, st)
  else
    let st1 : StorageState := { st with read_pool_set := true }
    if st1.log_sender_set then (-7, st1)
    else (0, { st1 with log_sender_set := true })

/-- C5 (amended): a second call to `init_economy_db`, after a previous
call has set the log sender, returns `0` — not `−7` — and leaves the
state untouched: re-initialization is idempotent.  `−7` is reserved for
the final `LOG_SENDER.set` failing during a first-time initialization. -/
theorem init_db_second_call_returns_zero (st : StorageState) (o d : Bool)
    (h : st.log_sender_set = true) :
    init_economy_db st o d = (0, st) := by
  simp [init_economy_db, h]

/-- Witness for `init_db_second_call_returns_zero` on a concrete
initialized state. -/
theorem init_db_second_call_returns_zero_witness :
    (⟨true, false⟩ : StorageState).log_sender_set = true ∧
    init_economy_db ⟨true, false⟩ false true = (0, ⟨true, false⟩) :=
  ⟨rfl, init_db_second_call_returns_zero ⟨true, false⟩ false true rfl⟩

/-- C5 counterexample: with the log sender already set, `init_economy_db`
returns code `0`, while the claim expects `−7`. -/
theorem init_db_second_call_counterexample :
    (init_economy_db ⟨true, true⟩ true true).1 = 0 ∧ ((0:ℤ) ≠ -7) := by
  exact ⟨rfl, by norm_num⟩

/-! ## `economy/macro_eco.rs` -/

/-- Embedding of `calculate_inflation_rate`: defensive zero below an M1
supply of 1, otherwise `heat / m1` hard-clamped to `[−0.15, 0.45]`. -/
def calculate_inflation_rate (current_heat m1_supply : ℝ) : ℝ :=
  if m1_supply ≤ 1 then 0
  else min (max (current_heat / m1_supply) (-0.15)) 0.45

/-- C10: the inflation rate is `0` for `m1_supply ≤ 1`, otherwise the
clamped ratio; in all cases it lies within `[−0.15, 0.45]`. -/
theorem calculate_inflation_rate_spec (h m : ℝ) :
    (m ≤ 1 → calculate_inflation_rate h m = 0) ∧
    (1 < m → calculate_inflation_rate h m = min (max (h / m) (-0.15)) 0.45) ∧
    -0.15 ≤ calculate_inflation_rate h m ∧ calculate_inflation_rate h m ≤ 0.45 := by
  unfold calculate_inflation_rate
  by_cases hm : m ≤ 1
  · rw [if_pos hm]
    exact ⟨fun _ => rfl, fun h1 => absurd hm (not_le.mpr h1), by norm_num, by norm_num⟩
  · rw [if_neg hm]
    exact ⟨fun h1 => absurd h1 hm, fun _ => rfl,
      le_min (le_max_right _ _) (by norm_num), min_le_right _ _⟩

/-- Witness for `calculate_inflation_rate_spec` at `heat = 100`,
`m1 = 1000`, where the rate is `0.1`. -/
theorem calculate_inflation_rate_spec_witness :
    calculate_inflation_rate 100 1000 = 0.1 ∧
    -0.15 ≤ calculate_inflation_rate 100 1000 ∧
    calculate_inflation_rate (100:ℝ) 1000 ≤ 0.45 := by
  have hval : calculate_inflation_rate 100 1000 = 0.1 := by
    have h2 := (calculate_inflation_rate_spec 100 1000).2.1 (by norm_num)
    rw [h2]
    rw [max_eq_left (by norm_num), min_eq_left (by norm_num)]
    norm_num
  exact ⟨hval, (calculate_inflation_rate_spec 100 1000).2.2.1,
    (calculate_inflation_rate_spec 100 1000).2.2.2⟩

end EcoBridge

namespace EcoBridge

/-! ## `economy/summation.rs` -/

/-- Rust iterator `.min().unwrap_or(d)` over a list of timestamps. -/
def minUnwrapOr (l : List ℤ) (d : ℤ) : ℤ :=
  match l with
  | [] => d
  | x :: xs => xs.foldl min x

/-- Embedding of `calculate_volume_in_memory` (`economy/summation.rs`),
scalar path (the AVX2 path computes the same partial sums in a different
association, which is identical in exact real arithmetic).  The
`as i64` truncation of the positive look-back span is `Int.floor`; the
trailing `is_finite` defence is vacuous in the exact-real model. -/
def calculate_volume_in_memory (history : List HistoryRecord) (current_time : ℤ)
    (tau : ℝ) : ℝ :=
  if history = [] ∨ tau ≤ 0 then 0
  else
    let lambda := 1 / (tau * 86400000)
    let valid_future_limit := current_time + 60000
    let valid_past_limit := current_time - ⌊tau * 86400000 * 10⌋
    let t_min := minUnwrapOr
      ((history.filter (fun r => decide (r.timestamp ≤ valid_future_limit) &&
          decide (valid_past_limit ≤ r.timestamp))).map (fun r => r.timestamp))
      current_time
    let base_multiplier := Real.exp (-((current_time - t_min : ℤ) : ℝ) * lambda)
    let sumPart := (history.map (fun r =>
      if r.timestamp > valid_future_limit ∨ r.timestamp < valid_past_limit then 0
      else r.amount * Real.exp (((r.timestamp - t_min : ℤ) : ℝ) * lambda))).sum
    sumPart * base_multiplier

/-- C2 (amended): the in-memory aggregation equals the sum of the
**signed** per-record contributions `amountᵢ · exp(−(t_now − tsᵢ)/(τ·86 400 000))`
over the in-range records — the aggregator does not take absolute values
(those are applied at ingestion and in the DuckDB query instead), so the
result is negative when the in-range stored amounts sum negatively. -/
theorem calculate_volume_signed_sum (history : List HistoryRecord) (t_now : ℤ)
    (tau : ℝ) (htau : 0 < tau) :
    calculate_volume_in_memory history t_now tau
      = (history.map (fun r =>
          if r.timestamp > t_now + 60000 ∨ r.timestamp < t_now - ⌊tau * 86400000 * 10⌋
          then 0
          else r.amount * Real.exp (-((t_now - r.timestamp : ℤ) : ℝ)
            / (tau * 86400000)))).sum := by
  by_cases hh : history = []
  · subst hh
    simp [calculate_volume_in_memory]
  · have hM : tau * 86400000 ≠ 0 := by positivity
    simp only [calculate_volume_in_memory]
    rw [if_neg (by push_neg; exact ⟨hh, htau⟩)]
    rw [← List.sum_map_mul_right]
    apply congrArg List.sum
    apply List.map_congr_left
    intro r _
    by_cases hr : r.timestamp > t_now + 60000 ∨
        r.timestamp < t_now - ⌊tau * 86400000 * 10⌋
    · rw [if_pos hr, if_pos hr, zero_mul]
    · rw [if_neg hr, if_neg hr, mul_assoc, ← Real.exp_add]
      congr 1
      push_cast
      field_simp
end EcoBridge

namespace EcoBridge

lemma floor_lookback_one : ⌊(1:ℝ) * 86400000 * 10⌋ = (864000000:ℤ) := by
  apply Int.floor_eq_iff.mpr
  constructor <;> norm_num

/-- Witness for `calculate_volume_signed_sum`: a single trade of 5 at the
query instant contributes exactly `5 · exp 0`. -/
theorem calculate_volume_signed_sum_witness :
    (0:ℝ) < 1 ∧
    calculate_volume_in_memory [(⟨0, 5⟩ : HistoryRecord)] 0 1
      = (([(⟨0, 5⟩ : HistoryRecord)]).map (fun r =>
          if r.timestamp > (0:ℤ) + 60000 ∨ r.timestamp < 0 - ⌊(1:ℝ) * 86400000 * 10⌋
          then 0
          else r.amount * Real.exp (-(((0:ℤ) - r.timestamp : ℤ) : ℝ)
            / (1 * 86400000)))).sum :=
  ⟨by norm_num, calculate_volume_signed_sum [(⟨0, 5⟩ : HistoryRecord)] 0 1 (by norm_num)⟩

/-- C2 counterexample: with the stored amount `−100` (hot-window records
keep the **signed** delta), the aggregation returns `−100 < 0`: each
record contributes its signed amount, not its absolute value, and the
result is not non-negative. -/
theorem calculate_volume_negative_counterexample :
    calculate_volume_in_memory [(⟨0, -100⟩ : HistoryRecord)] 0 1 < 0 := by
  simp only [calculate_volume_in_memory]
  rw [if_neg (by push_neg; refine ⟨by simp, by norm_num⟩)]
  rw [floor_lookback_one]
  norm_num [minUnwrapOr, List.filter_cons, List.filter_nil, List.sum_cons, List.sum_nil]

end EcoBridge

namespace EcoBridge

/-! ## `economy/environment.rs` -/

/-- Embedding of `TradeContext` (`models.rs`); the two-bit flags field
`newbie_mask` (bit 0: newbie, bit 1: festival) is a natural number. -/
structure TradeContext where
  base_price : ℝ
  current_amount : ℝ
  inflation_rate : ℝ
  current_timestamp : ℤ
  play_time_seconds : ℤ
  timezone_offset : ℤ
  newbie_mask : ℕ
  market_heat : ℝ
  eco_saturation : ℝ

/-- Embedding of `MarketConfig` (`models.rs`). -/
structure MarketConfig where
  base_lambda : ℝ
  volatility_factor : ℝ
  seasonal_amplitude : ℝ
  weekend_multiplier : ℝ
  newbie_protection_rate : ℝ
  seasonal_weight : ℝ
  weekend_weight : ℝ
  newbie_weight : ℝ
  inflation_weight : ℝ

/-- Embedding of `calculate_epsilon_internal` (`economy/environment.rs`):
timezone alignment, seasonal waves, Thursday-epoch weekend detection with
`rem_euclid` (= `Int.emod` for the positive modulus 7), newbie and
inflation factors, log-weighted composition, final clamp to `[0.1, 10]`. -/
def calculate_epsilon_internal (ctx : TradeContext) (cfg : MarketConfig) : ℝ :=
  let ts_sec_utc := (ctx.current_timestamp : ℝ) / 1000
  let offset_sec := (ctx.timezone_offset : ℝ)
  let ts_sec_local := ts_sec_utc + offset_sec
  let safeLn := fun (factor : ℝ) => Real.log (max factor 0.01)
  let day_wave := Real.sin (ts_sec_local * 2 * Real.pi / 86400)
  let week_wave := Real.sin (ts_sec_local * 2 * Real.pi / 604800)
  let month_wave := Real.sin (ts_sec_local * 2 * Real.pi / 2592000)
  let seasonal_factor := 0.6 * day_wave + 0.3 * week_wave + 0.1 * month_wave
  let f_sea0 := 1 + cfg.seasonal_amplitude * seasonal_factor
  let f_sea := if (ctx.newbie_mask >>> 1) &&& 1 = 1 then f_sea0 * 1.15 else f_sea0
  let day_index := ⌊ts_sec_local / 86400⌋
  let day_of_week := (day_index + 4) % 7
  let f_wk := if day_of_week ≥ 5 then cfg.weekend_multiplier else 1
  let f_nb := if ctx.newbie_mask &&& 1 = 1 then 1 - cfg.newbie_protection_rate else 1
  let sigmoid_trigger := 1 / (1 + Real.exp (-(ctx.inflation_rate - 0.05) * 10))
  let f_inf := 1 + ctx.inflation_rate * 0.2 * sigmoid_trigger
  let log_eps := cfg.seasonal_weight * safeLn f_sea + cfg.weekend_weight * safeLn f_wk
    + cfg.newbie_weight * safeLn f_nb + cfg.inflation_weight * safeLn f_inf
  min (max (Real.exp log_eps) 0.1) 10

lemma floor_local_day_sg :
    ⌊((((82800000:ℤ):ℝ) / 1000 + ((28800:ℤ):ℝ)) / 86400)⌋ = (1:ℤ) := by
  apply Int.floor_eq_iff.mpr
  constructor <;> push_cast <;> norm_num

lemma floor_local_day_utc :
    ⌊((((82800000:ℤ):ℝ) / 1000 + ((0:ℤ):ℝ)) / 86400)⌋ = (0:ℤ) := by
  apply Int.floor_eq_iff.mpr
  constructor <;> push_cast <;> norm_num

end EcoBridge

namespace EcoBridge

/-- C6 (amended): with the weekend **weight equal to 1** (not merely
nonzero), the other three weights zero and the weekend multiplier inside
the output clamp `[0.1, 10]`, the environment factor at Thursday
23:00 UTC (82 800 000 ms) with `timezone_offset = +8 h` (Friday 07:00
local, day-of-week `(⌊s_local/86400⌋ + 4) mod 7 = 5 ≥ 5`) equals the
weekend multiplier, while the same timestamp at offset 0 (Thursday,
day-of-week 4) yields `1.0`. -/
theorem weekend_factor_at_thursday_2300 (ctx1 ctx2 : TradeContext)
    (cfg : MarketConfig) (m : ℝ)
    (hts1 : ctx1.current_timestamp = 82800000) (hoff1 : ctx1.timezone_offset = 28800)
    (hts2 : ctx2.current_timestamp = 82800000) (hoff2 : ctx2.timezone_offset = 0)
    (hsw : cfg.seasonal_weight = 0) (hnw : cfg.newbie_weight = 0)
    (hiw : cfg.inflation_weight = 0) (hww : cfg.weekend_weight = 1)
    (hm : cfg.weekend_multiplier = m) (hm1 : 0.1 ≤ m) (hm2 : m ≤ 10) :
    calculate_epsilon_internal ctx1 cfg = m ∧
    calculate_epsilon_internal ctx2 cfg = 1 := by
  constructor
  · simp only [calculate_epsilon_internal, hts1, hoff1, hsw, hnw, hiw, hww, hm]
    rw [floor_local_day_sg]
    rw [if_pos (by decide : ((1:ℤ) + 4) % 7 ≥ 5)]
    simp only [zero_mul, one_mul, add_zero, zero_add]
    rw [max_eq_left (by linarith : (0.01:ℝ) ≤ m)]
    rw [Real.exp_log (by linarith : (0:ℝ) < m)]
    rw [max_eq_left hm1, min_eq_left hm2]
  · simp only [calculate_epsilon_internal, hts2, hoff2, hsw, hnw, hiw, hww]
    rw [floor_local_day_utc]
    rw [if_neg (by decide : ¬ ((0:ℤ) + 4) % 7 ≥ 5)]
    simp only [zero_mul, one_mul, add_zero, zero_add]
    rw [max_eq_left (by norm_num : (0.01:ℝ) ≤ 1)]
    rw [Real.log_one, Real.exp_zero]
    rw [max_eq_left (by norm_num : (0.1:ℝ) ≤ 1)]
    rw [min_eq_left (by norm_num : (1:ℝ) ≤ 10)]

/-- Witness for `weekend_factor_at_thursday_2300` with multiplier 2. -/
theorem weekend_factor_at_thursday_2300_witness :
    calculate_epsilon_internal ⟨0, 0, 0, 82800000, 0, 28800, 0, 0, 0⟩
        ⟨0.1, 1, 0.15, 2, 0.2, 0, 1, 0, 0⟩ = 2 ∧
    calculate_epsilon_internal ⟨0, 0, 0, 82800000, 0, 0, 0, 0, 0⟩
        ⟨0.1, 1, 0.15, 2, 0.2, 0, 1, 0, 0⟩ = 1 :=
  ⟨(weekend_factor_at_thursday_2300 ⟨0, 0, 0, 82800000, 0, 28800, 0, 0, 0⟩
      ⟨0, 0, 0, 82800000, 0, 0, 0, 0, 0⟩ ⟨0.1, 1, 0.15, 2, 0.2, 0, 1, 0, 0⟩ 2
      rfl rfl rfl rfl rfl rfl rfl rfl rfl (by norm_num) (by norm_num)).1,
    (weekend_factor_at_thursday_2300 ⟨0, 0, 0, 82800000, 0, 28800, 0, 0, 0⟩
      ⟨0, 0, 0, 82800000, 0, 0, 0, 0, 0⟩ ⟨0.1, 1, 0.15, 2, 0.2, 0, 1, 0, 0⟩ 2
      rfl rfl rfl rfl rfl rfl rfl rfl rfl (by norm_num) (by norm_num)).2⟩

/-- C6 counterexample: with weekend weight `2` (nonzero but not 1) and
multiplier `2`, the factor at Friday-07:00-local is
`exp(2·ln 2) = 4 ≠ 2`: "only the weekend weight nonzero" does not give
the multiplier itself. -/
theorem weekend_factor_nonzero_weight_counterexample :
    calculate_epsilon_internal ⟨0, 0, 0, 82800000, 0, 28800, 0, 0, 0⟩
        ⟨0.1, 1, 0.15, 2, 0.2, 0, 2, 0, 0⟩ = 4 ∧ (4:ℝ) ≠ 2 := by
  refine ⟨?_, by norm_num⟩
  have hexp : Real.exp (2 * Real.log 2) = 4 := by
    rw [show (2:ℝ) * Real.log 2 = Real.log (2 ^ (2:ℕ)) by
      rw [Real.log_pow]; push_cast; ring]
    rw [Real.exp_log (by norm_num)]
    norm_num
  simp only [calculate_epsilon_internal]
  rw [floor_local_day_sg]
  rw [if_pos (by decide : ((1:ℤ) + 4) % 7 ≥ 5)]
  simp only [zero_mul, one_mul, add_zero, zero_add]
  rw [max_eq_left (by norm_num : (0.01:ℝ) ≤ 2)]
  rw [hexp]
  rw [max_eq_left (by norm_num : (0.1:ℝ) ≤ 4)]
  rw [min_eq_left (by norm_num : (4:ℝ) ≤ 10)]

end EcoBridge

namespace EcoBridge

/-! ## `economy/control.rs` -/

def DEFAULT_INTEGRATION_LIMIT : ℝ := 30

def MAX_SAFE_DT : ℝ := 1

def MIN_TIME_STEP : ℝ := 1e-6

def OUTPUT_MIN_CLAMP : ℝ := 0.5

def OUTPUT_MAX_CLAMP : ℝ := 5

def OUTPUT_BASELINE : ℝ := 1

def INTEGRAL_DECAY : ℝ := 0.99999

def BACK_CALC_GAIN : ℝ := 0.2

def DERIVATIVE_FILTER_ALPHA : ℝ := 0.3

def PANIC_THRESHOLD : ℝ := 50

def PANIC_DAMPING : ℝ := 1.8

/-- Embedding of `PidState` (`models.rs`); the state fields are written
and read only on the finite path, so they are plain reals. -/
structure PidState where
  kp : ℝ
  ki : ℝ
  kd : ℝ
  lambda : ℝ
  integral : ℝ
  prev_pv : ℝ
  filtered_d : ℝ
  integration_limit : ℝ
  is_saturated : ℤ

/-- Rust `f64::clamp` on the finite path. -/
def clampR (x lo hi : ℝ) : ℝ := min (max x lo) hi

/-- The `sigmoid` helper of `economy/control.rs`. -/
def sigmoid (x : ℝ) : ℝ := 1 / (1 + Real.exp (-x))

/-- Embedding of `compute_pid_adjustment_internal` (`economy/control.rs`):
input guard, gain scheduling, leaky anti-windup integral with
back-calculation, filtered derivative with panic damping, output clamp to
`[0.5, 5]` and saturation flag update.  Returns `(output, new state)`;
the state mutation of the source is explicit state passing here, and the
trailing `is_finite` output defence is vacuous in the exact-real model. -/
def compute_pid_adjustment_internal (pid : PidState)
    (target_vel current_vel dt inflation : F) : ℝ × PidState :=
  if ¬ target_vel.isFinite ∨ ¬ current_vel.isFinite ∨ ¬ dt.isFinite ∨
      F.lt dt (F.num 0) ∨ ¬ inflation.isFinite then
    (OUTPUT_BASELINE, pid)
  else
    let error := target_vel.val - current_vel.val
    let dt_safe := clampR dt.val 0 MAX_SAFE_DT
    let schedule_gamma := 1 + sigmoid ((inflation.val - 0.05) * 20)
    let active_kp := pid.kp * schedule_gamma
    let active_ki := pid.ki * schedule_gamma
    let combined_leakage := (1 - clampR pid.lambda 0 1) * INTEGRAL_DECAY
    let integral1 :=
      if pid.is_saturated ≠ 0 then
        pid.integral * combined_leakage + (error * BACK_CALC_GAIN) * dt_safe
      else
        pid.integral * combined_leakage + error * dt_safe
    let limit := if pid.integration_limit > 0 then pid.integration_limit
      else DEFAULT_INTEGRATION_LIMIT
    let integral2 := clampR integral1 (-limit) limit
    let delta_pv := current_vel.val - pid.prev_pv
    let raw_derivative := if dt_safe > MIN_TIME_STEP then delta_pv / dt_safe else 0
    let filtered := DERIVATIVE_FILTER_ALPHA * raw_derivative
      + (1 - DERIVATIVE_FILTER_ALPHA) * pid.filtered_d
    let d_multiplier := if |filtered| > PANIC_THRESHOLD then PANIC_DAMPING else 1
    let p_term := active_kp * error
    let i_term := active_ki * integral2
    let d_term := pid.kd * filtered * d_multiplier
    let raw_output := OUTPUT_BASELINE + p_term + i_term - d_term
    let final_output := clampR raw_output OUTPUT_MIN_CLAMP OUTPUT_MAX_CLAMP
    let sat : ℤ := if |raw_output - final_output| > 1e-6 then 1 else 0
    (final_output,
      { pid with
          integral := integral2
          prev_pv := current_vel.val
          filtered_d := filtered
          is_saturated := sat })

/-- C7: a non-finite `target`, `current`, `dt` or `inflation`, or a
negative `dt`, short-circuits the PID step: the output is the baseline
`1.0` and the state is returned unchanged — in particular an integral
that was `0` before the call is still `0` after it. -/
theorem pid_guard_returns_baseline (pid : PidState) (t c dt infl : F)
    (h : ¬ t.isFinite ∨ ¬ c.isFinite ∨ ¬ dt.isFinite ∨
      F.lt dt (F.num 0) ∨ ¬ infl.isFinite) :
    compute_pid_adjustment_internal pid t c dt infl = (1, pid) := by
  unfold compute_pid_adjustment_internal
  rw [if_pos h]
  rfl

/-- Witness for `pid_guard_returns_baseline`: a `NaN` target on the
default state, and a negative `dt` on the default state, both return the
baseline with the state (hence the zero integral) intact. -/
theorem pid_guard_returns_baseline_witness :
    (¬ (F.nan).isFinite = true ∨ ¬ (F.num 0).isFinite = true ∨
      ¬ (F.num 0).isFinite = true ∨ F.lt (F.num 0) (F.num 0) ∨
      ¬ (F.num 0).isFinite = true) ∧
    compute_pid_adjustment_internal ⟨0.5, 0.1, 0.05, 0.01, 0, 0, 0, 30, 0⟩
        F.nan (F.num 0) (F.num 0) (F.num 0)
      = (1, ⟨0.5, 0.1, 0.05, 0.01, 0, 0, 0, 30, 0⟩) ∧
    compute_pid_adjustment_internal ⟨0.5, 0.1, 0.05, 0.01, 0, 0, 0, 30, 0⟩
        (F.num 100) (F.num 50) (F.num (-1)) (F.num 0)
      = (1, ⟨0.5, 0.1, 0.05, 0.01, 0, 0, 0, 30, 0⟩) :=
  ⟨Or.inl (by simp),
    pid_guard_returns_baseline _ _ _ _ _ (Or.inl (by simp)),
    pid_guard_returns_baseline _ _ _ _ _
      (Or.inr (Or.inr (Or.inr (Or.inl (by norm_num [F.lt])))))⟩

end EcoBridge
